import Mathlib

/-!
Verification of the Character Interaction & Animation Controller of the
Totono_Life_app repository (`src/src/components/Live2DCharacter.tsx`,
second revision of the component in that file — the one with layout
profiles, the gesture interpreter, the ambient scheduler and the action
bridge; the line numbers quoted in doc comments refer to that file).

JavaScript numbers are embedded as rationals (`ℚ`).  Division by zero
yields `0` in `ℚ` while it yields `±Infinity` in JavaScript; every
theorem below that touches a quotient is robust to that difference
because the quotient is immediately clamped into a closed band (both
`0` and `±Infinity` are clamped to an endpoint of the band).
-/

namespace Totono.Live2D

/-- The record returned by `getLayoutProfile` (Live2DCharacter.tsx,
lines 725–779).  Field names follow the source. -/
structure LayoutProfile where
  horizontalRatio : ℚ
  verticalRatio : ℚ
  minHorizontalMargin : ℚ
  minVerticalMargin : ℚ
  scaleFactor : ℚ
  minScale : ℚ
  maxScale : ℚ
  verticalShift : ℚ
deriving DecidableEq, Repr

/-- `getLayoutProfile(width, height)` (Live2DCharacter.tsx, lines
725–779).  The decimal constants of the source are written as exact
rationals: `0.045 = 9/200`, `0.08 = 2/25`, `0.78 = 39/50`,
`0.22 = 11/50`, `0.36 = 9/25`, `0.06 = 3/50`, `0.1 = 1/10`,
`0.8 = 4/5`, `0.24 = 6/25`, `0.38 = 19/50`, `0.05 = 1/20`,
`0.08 = 2/25`, `0.12 = 3/25`, `0.82 = 41/50`, `0.26 = 13/50`,
`0.4 = 2/5`, `0.04 = 1/25`, `0.03 = 3/100`, `0.14 = 7/50`,
`0.85 = 17/20`, `0.28 = 7/25`, `0.42 = 21/50`, `0.02 = 1/50`. -/
def getLayoutProfile (width height : ℚ) : LayoutProfile :=
  if width ≤ 420 then
    { horizontalRatio := 9/200, verticalRatio := 2/25,
      minHorizontalMargin := 20, minVerticalMargin := 36,
      scaleFactor := 39/50, minScale := 11/50, maxScale := 9/25,
      verticalShift := if height ≤ 640 then 2/25 else 3/50 }
  else if width ≤ 640 then
    { horizontalRatio := 3/50, verticalRatio := 1/10,
      minHorizontalMargin := 28, minVerticalMargin := 48,
      scaleFactor := 4/5, minScale := 6/25, maxScale := 19/50,
      verticalShift := if height ≤ 720 then 3/50 else 1/20 }
  else if width ≤ 960 then
    { horizontalRatio := 2/25, verticalRatio := 3/25,
      minHorizontalMargin := 40, minVerticalMargin := 56,
      scaleFactor := 41/50, minScale := 13/50, maxScale := 2/5,
      verticalShift := if height ≤ 820 then 1/25 else 3/100 }
  else
    { horizontalRatio := 1/10, verticalRatio := 7/50,
      minHorizontalMargin := 48, minVerticalMargin := 60,
      scaleFactor := 17/20, minScale := 7/25, maxScale := 21/50,
      verticalShift := if height ≤ 900 then 3/100 else 1/50 }

/-- `clampValue(value, min, max) = Math.min(max, Math.max(min, value))`
(Live2DCharacter.tsx, lines 721–723). -/
def clampValue (value lo hi : ℚ) : ℚ := min hi (max lo value)

/-- The scale computed by the `setup` layout block (Live2DCharacter.tsx,
lines 399–408): margins from the profile, available budget floored at 1,
`rawScale = min(availableWidth/nativeWidth, availableHeight/nativeHeight)`,
`baselineScale = rawScale * scaleFactor`, then
`clampValue(baselineScale, minScale, maxScale)`. -/
def layoutScale (width height nativeWidth nativeHeight : ℚ) : ℚ :=
  let p := getLayoutProfile width height
  let horizontalMargin := max (width * p.horizontalRatio) p.minHorizontalMargin
  let verticalMargin := max (height * p.verticalRatio) p.minVerticalMargin
  let availableWidth := max (width - horizontalMargin * 2) 1
  let availableHeight := max (height - verticalMargin * 2) 1
  let rawScale := min (availableWidth / nativeWidth) (availableHeight / nativeHeight)
  let baselineScale := rawScale * p.scaleFactor
  clampValue baselineScale p.minScale p.maxScale

/-- The `{scale, posX, posY}` triple of the layout block
(Live2DCharacter.tsx, lines 399–418): `posX = width / 2`,
`posY = height - verticalMargin - nativeHeight*scale/2` shifted down by
`nativeHeight*scale*verticalShift` and floored at
`minY = nativeHeight*scale/2 + verticalMargin*0.35` (`0.35 = 7/20`). -/
structure LayoutResult where
  scale : ℚ
  posX : ℚ
  posY : ℚ
deriving DecidableEq, Repr

def layout (width height nativeWidth nativeHeight : ℚ) : LayoutResult :=
  let p := getLayoutProfile width height
  let verticalMargin := max (height * p.verticalRatio) p.minVerticalMargin
  let scale := layoutScale width height nativeWidth nativeHeight
  let posX := width / 2
  let posY0 := height - verticalMargin - (nativeHeight * scale) / 2
  let posY1 := posY0 - nativeHeight * scale * p.verticalShift
  let minY := (nativeHeight * scale) / 2 + verticalMargin * (7/20)
  { scale := scale, posX := posX, posY := max minY posY1 }

lemma layout_scale_def (width height nativeWidth nativeHeight : ℚ) :
    (layout width height nativeWidth nativeHeight).scale =
      layoutScale width height nativeWidth nativeHeight := rfl

lemma clampValue_mem (value lo hi : ℚ) (h : lo ≤ hi) :
    lo ≤ clampValue value lo hi ∧ clampValue value lo hi ≤ hi :=
  ⟨le_min h (le_max_left lo value), min_le_left hi _⟩

lemma getLayoutProfile_minScale_le_maxScale (width height : ℚ) :
    (getLayoutProfile width height).minScale ≤ (getLayoutProfile width height).maxScale := by
  unfold getLayoutProfile
  split_ifs <;> norm_num

lemma layoutScale_eq_clamp (width height nativeWidth nativeHeight : ℚ) :
    layoutScale width height nativeWidth nativeHeight =
      clampValue
        (min ((max (width - max (width * (getLayoutProfile width height).horizontalRatio)
            (getLayoutProfile width height).minHorizontalMargin * 2) 1) / nativeWidth)
          ((max (height - max (height * (getLayoutProfile width height).verticalRatio)
            (getLayoutProfile width height).minVerticalMargin * 2) 1) / nativeHeight) *
          (getLayoutProfile width height).scaleFactor)
        (getLayoutProfile width height).minScale
        (getLayoutProfile width height).maxScale := rfl

/-- C1: for every container width and height (zero and negative values
included) and every native model size, the scale applied by the layout
block is `clampValue(rawScale * scaleFactor, minScale, maxScale)` for
the profile `getLayoutProfile` selects for that container size, and in
particular it lies within the `[minScale, maxScale]` band of that
profile. -/
theorem layout_scale_in_profile_band (width height nativeWidth nativeHeight : ℚ) :
    (getLayoutProfile width height).minScale ≤
        (layout width height nativeWidth nativeHeight).scale ∧
      (layout width height nativeWidth nativeHeight).scale ≤
        (getLayoutProfile width height).maxScale := by
  rw [layout_scale_def, layoutScale_eq_clamp]
  exact clampValue_mem _ _ _ (getLayoutProfile_minScale_le_maxScale width height)

lemma getLayoutProfile_minScale (width height : ℚ) :
    (getLayoutProfile width height).minScale =
      if width ≤ 420 then 11/50 else if width ≤ 640 then 6/25
      else if width ≤ 960 then 13/50 else 7/25 := by
  unfold getLayoutProfile
  split_ifs <;> rfl

lemma getLayoutProfile_maxScale (width height : ℚ) :
    (getLayoutProfile width height).maxScale =
      if width ≤ 420 then 9/25 else if width ≤ 640 then 19/50
      else if width ≤ 960 then 2/5 else 21/50 := by
  unfold getLayoutProfile
  split_ifs <;> rfl

lemma layout_scale_at_420 : (layout 420 800 3000 3000).scale = 11/50 := by
  rw [layout_scale_def]
  norm_num [layoutScale, getLayoutProfile, clampValue, min_def, max_def]

lemma layout_scale_at_421 : (layout 421 800 3000 3000).scale = 6/25 := by
  rw [layout_scale_def]
  norm_num [layoutScale, getLayoutProfile, clampValue, min_def, max_def]

/-- C6 counterexample: the profile selection has no breakpoint at 520px
— widths 520 and 521 select the same profile — while 420 is a
breakpoint (widths 420 and 421 select different profiles); moreover the
scale function is not continuous there: for a 3000×3000 native model at
container height 800, the scale is `0.22` at width 420 and already
`0.24` at width 421 (indeed at least `0.24` at every width in
`(420, 640]`, since `0.24` is that profile's clamp floor). -/
theorem layout_breakpoint_counterexample :
    getLayoutProfile 520 800 = getLayoutProfile 521 800 ∧
      getLayoutProfile 420 800 ≠ getLayoutProfile 421 800 ∧
      (layout 420 800 3000 3000).scale = 11/50 ∧
      (layout 421 800 3000 3000).scale = 6/25 := by
  refine ⟨?_, ?_, layout_scale_at_420, layout_scale_at_421⟩
  · norm_num [getLayoutProfile]
  · norm_num [getLayoutProfile, LayoutProfile.mk.injEq]

/-- C6 amended: the layout distinguishes four container-width classes
with breakpoints at 420, 640 and 960 px (none at 520); the clamp band
`[minScale, maxScale]` is monotonically nondecreasing in container
width; and the scale function is discontinuous at the 420 breakpoint —
for a 3000×3000 native model at height 800 the scale is `0.22` at width
420, while at every width in `(420, 640]` it is at least `0.24`. -/
theorem layout_breakpoints_amended (h w w₁ w₂ : ℚ) (h12 : w₁ ≤ w₂)
    (hw1 : 420 < w) (hw2 : w ≤ 640) :
    getLayoutProfile 520 h = getLayoutProfile 521 h ∧
      getLayoutProfile 420 h ≠ getLayoutProfile 421 h ∧
      getLayoutProfile 640 h ≠ getLayoutProfile 641 h ∧
      getLayoutProfile 960 h ≠ getLayoutProfile 961 h ∧
      (getLayoutProfile w₁ h).minScale ≤ (getLayoutProfile w₂ h).minScale ∧
      (getLayoutProfile w₁ h).maxScale ≤ (getLayoutProfile w₂ h).maxScale ∧
      (layout 420 800 3000 3000).scale = 11/50 ∧
      6/25 ≤ (layout w 800 3000 3000).scale := by
  refine ⟨?_, ?_, ?_, ?_, ?_, ?_, layout_scale_at_420, ?_⟩
  · norm_num [getLayoutProfile]
  · norm_num [getLayoutProfile, LayoutProfile.mk.injEq]
  · norm_num [getLayoutProfile, LayoutProfile.mk.injEq]
  · norm_num [getLayoutProfile, LayoutProfile.mk.injEq]
  · rw [getLayoutProfile_minScale, getLayoutProfile_minScale]
    split_ifs <;> (try simp_all only [not_le]) <;> linarith
  · rw [getLayoutProfile_maxScale, getLayoutProfile_maxScale]
    split_ifs <;> (try simp_all only [not_le]) <;> linarith
  · rw [layout_scale_def, layoutScale_eq_clamp]
    have hp : getLayoutProfile w 800 =
        { horizontalRatio := 3/50, verticalRatio := 1/10, minHorizontalMargin := 28,
          minVerticalMargin := 48, scaleFactor := 4/5, minScale := 6/25,
          maxScale := 19/50, verticalShift := 1/20 } := by
      unfold getLayoutProfile
      rw [if_neg (by linarith), if_pos hw2]
      norm_num
    rw [hp]
    exact (clampValue_mem _ _ _ (by norm_num)).1

/-- Witness for `layout_breakpoints_amended` at `h = 800`, `w = 500`,
`w₁ = 300`, `w₂ = 700`. -/
theorem layout_breakpoints_amended_witness :
    getLayoutProfile 520 800 = getLayoutProfile 521 800 ∧
      getLayoutProfile 420 800 ≠ getLayoutProfile 421 800 ∧
      getLayoutProfile 640 800 ≠ getLayoutProfile 641 800 ∧
      getLayoutProfile 960 800 ≠ getLayoutProfile 961 800 ∧
      (getLayoutProfile 300 800).minScale ≤ (getLayoutProfile 700 800).minScale ∧
      (getLayoutProfile 300 800).maxScale ≤ (getLayoutProfile 700 800).maxScale ∧
      (layout 420 800 3000 3000).scale = 11/50 ∧
      6/25 ≤ (layout 500 800 3000 3000).scale :=
  layout_breakpoints_amended 800 500 300 700 (by norm_num) (by norm_num) (by norm_num)

/-! ### Ambient scheduler timers (Live2DCharacter.tsx, lines 595–626 and
664–667).  The state pairs the browser's multiset of pending timeout ids
with the component's `ambientTimeoutRef.current` (`none` embeds the
JavaScript `null`), plus a counter supplying fresh timeout ids. -/

structure AmbientTimerState where
  pending : List ℕ
  ref : Option ℕ
  fresh : ℕ
deriving DecidableEq, Repr

def AmbientTimerState.init : AmbientTimerState := ⟨[], none, 0⟩

/-- `scheduleAmbientMotion` as it acts on timers (lines 595–604):
`window.clearTimeout` on any id held in the ref, then one
`window.setTimeout`, whose id is stored in the ref. -/
def scheduleAmbient (s : AmbientTimerState) : AmbientTimerState :=
  let cleared := match s.ref with
    | some t => s.pending.erase t
    | none => s.pending
  { pending := s.fresh :: cleared, ref := some s.fresh, fresh := s.fresh + 1 }

/-- The browser fires pending timeout `t`: it stops being pending and
the callback of lines 604–625 runs.  The callback nulls the ref first;
if `modelRef.current` is null it returns without rescheduling, and on
every other path it ends in a recursive `scheduleAmbientMotion` call
(back-off when a motion is playing, a fresh jittered delay after
acting), modelled by `scheduleAmbient`.  Firing an id that is not
pending does nothing. -/
def fireAmbient (s : AmbientTimerState) (t : ℕ) (modelPresent : Bool) :
    AmbientTimerState :=
  if t ∈ s.pending then
    let s1 : AmbientTimerState := ⟨s.pending.erase t, none, s.fresh⟩
    if modelPresent then scheduleAmbient s1 else s1
  else s

/-- The unmount cleanup as it acts on the ambient timer (lines 664–667):
clear any timeout whose id the ref holds and null the ref. -/
def teardownAmbient (s : AmbientTimerState) : AmbientTimerState :=
  match s.ref with
  | some t => ⟨s.pending.erase t, none, s.fresh⟩
  | none => s

inductive AmbientEvent where
  | schedule : AmbientEvent
  | fire : ℕ → Bool → AmbientEvent
  | teardown : AmbientEvent
deriving DecidableEq, Repr

def ambientStep (s : AmbientTimerState) : AmbientEvent → AmbientTimerState
  | .schedule => scheduleAmbient s
  | .fire t mp => fireAmbient s t mp
  | .teardown => teardownAmbient s

def ambientRun (s : AmbientTimerState) : List AmbientEvent → AmbientTimerState
  | [] => s
  | e :: es => ambientRun (ambientStep s e) es

/-- The pending set is exactly what the ref points at. -/
def AmbientInv (s : AmbientTimerState) : Prop :=
  s.pending = s.ref.toList

lemma ambientInv_schedule (s : AmbientTimerState) (h : AmbientInv s) :
    AmbientInv (scheduleAmbient s) := by
  unfold AmbientInv at *
  unfold scheduleAmbient
  cases hr : s.ref <;> rw [hr] at h <;> simp_all

lemma ambientInv_teardown (s : AmbientTimerState) (h : AmbientInv s) :
    AmbientInv (teardownAmbient s) := by
  unfold AmbientInv at *
  unfold teardownAmbient
  cases hr : s.ref <;> rw [hr] at h <;> simp_all

lemma ambientInv_fire (s : AmbientTimerState) (t : ℕ) (mp : Bool)
    (h : AmbientInv s) : AmbientInv (fireAmbient s t mp) := by
  unfold fireAmbient
  by_cases hmem : t ∈ s.pending
  · rw [if_pos hmem]
    have h1 : AmbientInv ⟨s.pending.erase t, none, s.fresh⟩ := by
      unfold AmbientInv at *
      cases hr : s.ref <;> rw [hr] at h <;> simp_all
    cases mp
    · simpa using h1
    · simpa using ambientInv_schedule _ h1
  · rw [if_neg hmem]
    exact h

lemma ambientInv_step (s : AmbientTimerState) (e : AmbientEvent)
    (h : AmbientInv s) : AmbientInv (ambientStep s e) := by
  cases e with
  | schedule => exact ambientInv_schedule s h
  | fire t mp => exact ambientInv_fire s t mp h
  | teardown => exact ambientInv_teardown s h

lemma ambientInv_run (s : AmbientTimerState) (tr : List AmbientEvent)
    (h : AmbientInv s) : AmbientInv (ambientRun s tr) := by
  induction tr generalizing s with
  | nil => exact h
  | cons e es ih => exact ih _ (ambientInv_step s e h)

lemma ambientRun_append (s : AmbientTimerState) (tr : List AmbientEvent)
    (e : AmbientEvent) :
    ambientRun s (tr ++ [e]) = ambientStep (ambientRun s tr) e := by
  induction tr generalizing s with
  | nil => rfl
  | cons f fs ih => exact ih (ambientStep s f)

lemma scheduleAmbient_ref (s : AmbientTimerState) :
    (scheduleAmbient s).ref = some s.fresh := rfl

lemma teardownAmbient_ref (s : AmbientTimerState) :
    (teardownAmbient s).ref = none := by
  unfold teardownAmbient
  cases hr : s.ref <;> simp [hr]

/-- C2: along every event trace from the initial state, at most one
ambient timeout is ever pending; a `scheduleAmbientMotion` call always
leaves exactly one pending timeout (it clears the previous one before
arming the new one); and after the unmount cleanup runs, no ambient
timeout is pending at all. -/
theorem ambient_at_most_one_pending (tr : List AmbientEvent) :
    (ambientRun AmbientTimerState.init tr).pending.length ≤ 1 ∧
      (ambientRun AmbientTimerState.init (tr ++ [AmbientEvent.schedule])).pending.length = 1 ∧
      (ambientRun AmbientTimerState.init (tr ++ [AmbientEvent.teardown])).pending = [] := by
  have hinv : AmbientInv (ambientRun AmbientTimerState.init tr) :=
    ambientInv_run _ _ (by simp [AmbientInv, AmbientTimerState.init])
  refine ⟨?_, ?_, ?_⟩
  · rw [AmbientInv] at hinv
    rw [hinv]
    cases (ambientRun AmbientTimerState.init tr).ref <;> simp
  · rw [ambientRun_append]
    have h2 := ambientInv_schedule _ hinv
    rw [AmbientInv] at h2
    show (scheduleAmbient _).pending.length = 1
    rw [h2, scheduleAmbient_ref]
    rfl
  · rw [ambientRun_append]
    have h2 := ambientInv_teardown _ hinv
    rw [AmbientInv] at h2
    show (teardownAmbient _).pending = []
    rw [h2, teardownAmbient_ref]
    rfl

/-! ### Ambient fire callback delays (Live2DCharacter.tsx, lines 283–284
and 595–626). -/

def MIN_AMBIENT_DELAY : ℚ := 7000

def MAX_AMBIENT_DELAY : ℚ := 13000

/-- The `baseDelay` computed by `scheduleAmbientMotion` (lines 600–602):
an override is floored at 2000, otherwise the delay is
`MIN_AMBIENT_DELAY + r * (MAX_AMBIENT_DELAY - MIN_AMBIENT_DELAY)` where
`r` is the `Math.random()` sample. -/
def ambientBaseDelay (delayOverride : Option ℚ) (r : ℚ) : ℚ :=
  match delayOverride with
  | some d => max d 2000
  | none => MIN_AMBIENT_DELAY + r * (MAX_AMBIENT_DELAY - MIN_AMBIENT_DELAY)

lemma ambientBaseDelay_ge_2000 (delayOverride : Option ℚ) (r : ℚ)
    (hr : 0 ≤ r) : 2000 ≤ ambientBaseDelay delayOverride r := by
  cases delayOverride with
  | some d => exact le_max_right d 2000
  | none =>
    show (2000:ℚ) ≤ MIN_AMBIENT_DELAY + r * (MAX_AMBIENT_DELAY - MIN_AMBIENT_DELAY)
    unfold MIN_AMBIENT_DELAY MAX_AMBIENT_DELAY
    nlinarith

/-- An action the ambient callback can emit. -/
inductive AmbientAction where
  | expression : AmbientAction
  | motion (index : ℕ) : AmbientAction
deriving DecidableEq, Repr

/-- Outcome of one run of the ambient timeout callback: the director
calls it made and the `baseDelay` of the recursive
`scheduleAmbientMotion` call, if any. -/
structure AmbientFireResult where
  actions : List AmbientAction
  rearmedDelay : Option ℚ
deriving DecidableEq, Repr

/-- The body of the ambient timeout callback (lines 604–625), run when
the armed timeout of `baseDelay` milliseconds elapses.  `docHidden` is
the document's visibility at fire time; the source body never consults
it.  `modelPresent` is `modelRef.current !== null`, `playing` is what
`isMotionPlaying` reports, `pickR` and `r2` are the `Math.random()`
draws (branch pick, fresh-delay jitter), `motionIndex` stands for
`Math.floor(Math.random() * EXTRA_MOTION_COUNT)`.  When a motion is
playing the callback acts on nothing and reschedules with the override
`Math.max(baseDelay * 0.5, 1800)`; otherwise it emits one expression or
one forced motion and reschedules with no override. -/
def ambientFireBody (baseDelay : ℚ) (modelPresent playing docHidden : Bool)
    (pickR r2 : ℚ) (motionIndex : ℕ) : AmbientFireResult :=
  if modelPresent = false then { actions := [], rearmedDelay := none }
  else if playing then
    { actions := [],
      rearmedDelay := some (ambientBaseDelay (some (max (baseDelay * (1/2)) 1800)) r2) }
  else if pickR < 45/100 then
    { actions := [.expression], rearmedDelay := some (ambientBaseDelay none r2) }
  else
    { actions := [.motion motionIndex], rearmedDelay := some (ambientBaseDelay none r2) }

/-- C5 counterexample: the armed timer fires while the document is
hidden (`docHidden = true`) and no motion is playing; the claim says
the scheduler must trigger nothing and reschedule shorter, but the
callback never consults the document's visibility and triggers a forced
ambient motion (here `motionIndex = 3` with branch draw
`pickR = 1/2 ≥ 0.45`). -/
theorem ambient_fire_ignores_document_hidden :
    (ambientFireBody 8000 true false true (1/2) (1/2) 3).actions =
      [AmbientAction.motion 3] := by
  norm_num [ambientFireBody]

/-- C5 amended: when the armed ambient timer fires while a motion is
currently reported as playing, the callback triggers no motion and no
expression and reschedules itself with the non-zero delay
`max(baseDelay/2, 2000)` (the 1800 back-off floor is raised to 2000 by
`scheduleAmbientMotion`'s own override floor); that delay never exceeds
the delay that just elapsed and is strictly shorter whenever the
elapsed delay exceeds the 2000ms floor — but the code never consults
document visibility, so a fire while the document is merely hidden acts
normally. -/
theorem ambient_fire_backoff_when_playing (baseDelay pickR r2 : ℚ)
    (docHidden : Bool) (motionIndex : ℕ) (hb : 2000 ≤ baseDelay) :
    (ambientFireBody baseDelay true true docHidden pickR r2 motionIndex).actions = [] ∧
      (ambientFireBody baseDelay true true docHidden pickR r2 motionIndex).rearmedDelay =
        some (max (baseDelay * (1/2)) 2000) ∧
      (0:ℚ) < max (baseDelay * (1/2)) 2000 ∧
      max (baseDelay * (1/2)) 2000 ≤ baseDelay ∧
      (2000 < baseDelay → max (baseDelay * (1/2)) 2000 < baseDelay) := by
  refine ⟨rfl, ?_, ?_, ?_, ?_⟩
  · show some (max (max (baseDelay * (1/2)) 1800) 2000) = some (max (baseDelay * (1/2)) 2000)
    rw [max_assoc]
    norm_num
  · exact lt_of_lt_of_le (by norm_num) (le_max_right _ _)
  · exact max_le (by linarith) hb
  · intro hlt
    exact max_lt (by linarith) hlt

/-- Witness for `ambient_fire_backoff_when_playing` at
`baseDelay = 8000`. -/
theorem ambient_fire_backoff_when_playing_witness :
    (ambientFireBody 8000 true true false (1/2) (1/2) 0).actions = [] ∧
      (ambientFireBody 8000 true true false (1/2) (1/2) 0).rearmedDelay =
        some (max ((8000:ℚ) * (1/2)) 2000) ∧
      (0:ℚ) < max ((8000:ℚ) * (1/2)) 2000 ∧
      max ((8000:ℚ) * (1/2)) 2000 ≤ 8000 ∧
      ((2000:ℚ) < 8000 → max ((8000:ℚ) * (1/2)) 2000 < 8000) :=
  ambient_fire_backoff_when_playing 8000 (1/2) (1/2) false 0 (by norm_num)

/-! ### Motion/expression director (Live2DCharacter.tsx, lines 481–517
and 785–808).

The rendering runtime (`pixi-live2d-display`) is a third-party
dependency, so its motion manager is modelled minimally, after the
spec's `PlaybackState` description: starting a motion makes the manager
report playing until a playback-finished signal, `stopAllMotions` makes
it report not playing.  Fault flags say which runtime entry points
throw when called; a call that throws performs no mutation. -/

structure RuntimeModel where
  playing : Bool
  current : Option (String × ℕ)
  expr : Option String
  stopFails : Bool
  motionFails : Bool
  exprFails : Bool
  statusFails : Bool
deriving DecidableEq, Repr

/-- `internalModel.motionManager.stopAllMotions()`; the error payload of
a throwing call carries the (unmutated) runtime state. -/
def stopAllMotionsCall (r : RuntimeModel) : Except RuntimeModel RuntimeModel :=
  if r.stopFails then .error r else .ok { r with playing := false, current := none }

/-- `model.motion(group, index)`. -/
def startMotionCall (group : String) (index : ℕ) (r : RuntimeModel) :
    Except RuntimeModel RuntimeModel :=
  if r.motionFails then .error r
  else .ok { r with playing := true, current := some (group, index) }

/-- `model.expression(expressionId)`. -/
def expressionCall (expressionId : String) (r : RuntimeModel) :
    Except RuntimeModel RuntimeModel :=
  if r.exprFails then .error r else .ok { r with expr := some expressionId }

/-- `isMotionPlaying(model)` (lines 785–808): `false` for a null model;
otherwise asks the motion manager, and its own `try`/`catch` turns a
throwing status query into `false`. -/
def isMotionPlaying (model : Option RuntimeModel) : Bool :=
  match model with
  | none => false
  | some r => if r.statusFails then false else r.playing

/-- The `try` block of `triggerMotion` (lines 492–502): stop all
motions when the group is not the idle group, then start the requested
motion.  Any throw escapes this body (to be caught by `triggerMotion`
itself). -/
def triggerMotionBody (idleMotionGroup group : String) (index : ℕ)
    (r : RuntimeModel) : Except RuntimeModel RuntimeModel :=
  if group ≠ idleMotionGroup then
    match stopAllMotionsCall r with
    | .ok r1 => startMotionCall group index r1
    | .error re => .error re
  else startMotionCall group index r

/-- `triggerMotion(group, index, {force})` (lines 481–507): `false` for
a null model; a no-op returning `false` when the group is not the idle
group, `force` is not set and a motion is reported as playing;
otherwise the body runs with its throw caught and turned into `false`. -/
def triggerMotion (idleMotionGroup group : String) (index : ℕ) (force : Bool)
    (model : Option RuntimeModel) : Bool × Option RuntimeModel :=
  match model with
  | none => (false, none)
  | some r =>
    if group ≠ idleMotionGroup ∧ force = false ∧ isMotionPlaying (some r) = true then
      (false, some r)
    else
      match triggerMotionBody idleMotionGroup group index r with
      | .ok r1 => (true, some r1)
      | .error re => (false, some re)

/-- `triggerExpression(expression)` (lines 509–517): no-op on a null
model, otherwise calls the runtime with the throw caught and logged;
it always returns normally. -/
def triggerExpression (expressionId : String) (model : Option RuntimeModel) :
    Option RuntimeModel :=
  match model with
  | none => none
  | some r =>
    match expressionCall expressionId r with
    | .ok r1 => some r1
    | .error re => some re

/-- C3: when a motion is reported as playing, a non-forced
`triggerMotion` on a group other than the idle group is a no-op that
returns `false` and leaves the runtime state unchanged; and calling
`triggerMotion(nonIdleGroup, i, {force: false})` twice in rapid
succession — starting from a state with nothing playing and a healthy
runtime, with no playback-finished signal between the calls — returns
`true` on the first call and `false` on the second. -/
theorem trigger_motion_noop_and_double_call (idleMotionGroup group : String)
    (index : ℕ) (s t : RuntimeModel)
    (hg : group ≠ idleMotionGroup)
    (hs : isMotionPlaying (some s) = true)
    (htPlaying : t.playing = false)
    (htStatus : t.statusFails = false)
    (htStop : t.stopFails = false)
    (htMotion : t.motionFails = false) :
    triggerMotion idleMotionGroup group index false (some s) = (false, some s) ∧
      (triggerMotion idleMotionGroup group index false (some t)).1 = true ∧
      (triggerMotion idleMotionGroup group index false
        (triggerMotion idleMotionGroup group index false (some t)).2).1 = false := by
  refine ⟨?_, ?_, ?_⟩
  · simp [triggerMotion, hg, hs]
  · simp [triggerMotion, triggerMotionBody, stopAllMotionsCall, startMotionCall,
      isMotionPlaying, htStatus, htPlaying, htStop, htMotion, hg]
  · simp [triggerMotion, triggerMotionBody, stopAllMotionsCall, startMotionCall,
      isMotionPlaying, htStatus, htPlaying, htStop, htMotion, hg]

/-- Witness for `trigger_motion_noop_and_double_call`: idle group
`"Idle"`, tap group `""` (the source's `EXTRA_MOTION_GROUP`), a playing
state `s` and a quiescent healthy state `t`. -/
theorem trigger_motion_noop_and_double_call_witness :
    triggerMotion "Idle" "" 0 false
        (some ⟨true, some ("", 1), none, false, false, false, false⟩) =
        (false, some ⟨true, some ("", 1), none, false, false, false, false⟩) ∧
      (triggerMotion "Idle" "" 0 false
        (some ⟨false, none, none, false, false, false, false⟩)).1 = true ∧
      (triggerMotion "Idle" "" 0 false
        (triggerMotion "Idle" "" 0 false
          (some ⟨false, none, none, false, false, false, false⟩)).2).1 = false :=
  trigger_motion_noop_and_double_call "Idle" "" 0
    ⟨true, some ("", 1), none, false, false, false, false⟩
    ⟨false, none, none, false, false, false, false⟩
    (by decide) rfl rfl rfl rfl rfl

/-- C8: a throwing runtime call never propagates out of `triggerMotion`
or `triggerExpression`: whenever the `try` body of `triggerMotion`
throws, `triggerMotion` returns `false` (with the state the runtime had
at the throw), and whenever the expression call throws,
`triggerExpression` still returns normally. -/
theorem trigger_calls_never_propagate (idleMotionGroup group expressionId : String)
    (index : ℕ) (force : Bool) (r s re se : RuntimeModel)
    (hbody : triggerMotionBody idleMotionGroup group index r = Except.error re)
    (hexpr : expressionCall expressionId s = Except.error se) :
    (triggerMotion idleMotionGroup group index force (some r)).1 = false ∧
      triggerExpression expressionId (some s) = some se := by
  constructor
  · simp only [triggerMotion]
    split_ifs
    · rfl
    · rw [hbody]
  · simp only [triggerExpression]
    rw [hexpr]

/-- Witness for `trigger_calls_never_propagate`: a runtime whose motion
and expression entry points throw. -/
theorem trigger_calls_never_propagate_witness :
    (triggerMotion "Idle" "" 0 true
        (some ⟨false, none, none, false, true, true, false⟩)).1 = false ∧
      triggerExpression "exp_05"
          (some ⟨false, none, none, false, true, true, false⟩) =
        some ⟨false, none, none, false, true, true, false⟩ :=
  trigger_calls_never_propagate "Idle" "" "exp_05" 0 true
    ⟨false, none, none, false, true, true, false⟩
    ⟨false, none, none, false, true, true, false⟩
    ⟨false, none, none, false, true, true, false⟩
    ⟨false, none, none, false, true, true, false⟩
    rfl rfl

/-! ### Gesture interpreter (Live2DCharacter.tsx, lines 285–288 and
519–593). -/

def PET_DISTANCE_THRESHOLD : ℚ := 65

/-- The `pointerState` record of `setupInteractionHandlers`
(lines 523–533). -/
structure PointerState where
  isDown : Bool
  hasDragged : Bool
  lastX : ℚ
  lastY : ℚ
deriving DecidableEq, Repr

/-- Raw events delivered to the handlers registered at lines 578–583:
`down`/`move`/`up` are the pointer events of a press-drag-release cycle
(`pointerup`, `pointerupoutside` and `pointercancel` all run the same
`handlePointerUp`); `tapFired` is the framework-synthesised `pointertap`
event, which pixi v6 delivers when the press and the release both hit
the model — dragging in between does not cancel it. -/
inductive GestureEvent where
  | down (x y : ℚ)
  | move (x y : ℚ)
  | up
  | tapFired
deriving DecidableEq, Repr

/-- A semantic gesture emission: a pet trigger
(`triggerMotion(EXTRA_MOTION_GROUP, PET_MOTION_INDEX, {force: true})`
from `handlePointerMove`) or a tap classification (`handlePointerTap`,
which fires the tap motion or its expression fallback). -/
inductive GestureEmission where
  | pet
  | tapGesture
deriving DecidableEq, Repr

/-- `Math.hypot(dx, dy) >= PET_DISTANCE_THRESHOLD` (line 563), embedded
without square roots as the equivalent comparison of squares (both
sides are nonnegative, so the two are exactly equivalent). -/
def petMoveReaches (dx dy : ℚ) : Bool :=
  decide (PET_DISTANCE_THRESHOLD ^ 2 ≤ dx ^ 2 + dy ^ 2)

/-- One handler invocation (lines 535–576).  `triggerOk` is the Boolean
the forced pet `triggerMotion` call returns; the source assigns it to
`hasDragged`, so a failed trigger leaves the pet re-armed. -/
def gestureStep (triggerOk : Bool) (s : PointerState) :
    GestureEvent → PointerState × List GestureEmission
  | .down x y => (⟨true, false, x, y⟩, [])
  | .move x y =>
    if s.isDown = false then (s, [])
    else
      let dx := x - s.lastX
      let dy := y - s.lastY
      if s.hasDragged = false ∧ petMoveReaches dx dy = true then
        (⟨s.isDown, triggerOk, x, y⟩, [GestureEmission.pet])
      else (⟨s.isDown, s.hasDragged, x, y⟩, [])
  | .up => (⟨false, false, 0, 0⟩, [])
  | .tapFired => (⟨s.isDown, false, s.lastX, s.lastY⟩, [GestureEmission.tapGesture])

def runGesture (triggerOk : Bool) (s : PointerState) :
    List GestureEvent → PointerState × List GestureEmission
  | [] => (s, [])
  | e :: es =>
    let r1 := gestureStep triggerOk s e
    let r2 := runGesture triggerOk r1.1 es
    (r2.1, r1.2 ++ r2.2)

/-- A full press-drag-release cycle: `pointerdown` at `(x, y)`, the
listed `pointermove` positions, then the release — with the framework's
`pointertap` (when it delivers one) and `pointerup`. -/
def pressCycle (x y : ℚ) (moves : List (ℚ × ℚ)) (deliversTap : Bool) :
    List GestureEvent :=
  GestureEvent.down x y ::
    ((moves.map fun p => GestureEvent.move p.1 p.2) ++
      ((if deliversTap then [GestureEvent.tapFired] else []) ++ [GestureEvent.up]))

def cycleEmissions (triggerOk : Bool) (x y : ℚ) (moves : List (ℚ × ℚ))
    (deliversTap : Bool) : List GestureEmission :=
  (runGesture triggerOk ⟨false, false, 0, 0⟩ (pressCycle x y moves deliversTap)).2

/-- Whether some single move's displacement from the previously recorded
point reaches the pet threshold. -/
def anyStepReaches (x y : ℚ) : List (ℚ × ℚ) → Bool
  | [] => false
  | p :: ps =>
    if petMoveReaches (p.1 - x) (p.2 - y) = true then true
    else anyStepReaches p.1 p.2 ps

/-- The claim's measure: the cumulative drag distance of the pointer
path, i.e. the sum of the euclidean lengths of the successive
displacements. -/
noncomputable def cumulativeDragDistance (x y : ℚ) : List (ℚ × ℚ) → ℝ
  | [] => 0
  | p :: ps =>
    Real.sqrt (((p.1 : ℝ) - (x : ℝ)) ^ 2 + ((p.2 : ℝ) - (y : ℝ)) ^ 2) +
      cumulativeDragDistance p.1 p.2 ps

lemma runGesture_append (tk : Bool) (s : PointerState)
    (l1 l2 : List GestureEvent) :
    (runGesture tk s (l1 ++ l2)).2 =
      (runGesture tk s l1).2 ++ (runGesture tk (runGesture tk s l1).1 l2).2 := by
  induction l1 generalizing s with
  | nil => simp [runGesture]
  | cons e es ih => simp [runGesture, ih]

lemma moves_emissions_dragged (tk : Bool) (ms : List (ℚ × ℚ)) (x y : ℚ) :
    (runGesture tk ⟨true, true, x, y⟩ (ms.map fun p => GestureEvent.move p.1 p.2)).2 = [] := by
  induction ms generalizing x y with
  | nil => rfl
  | cons p ps ih =>
    simp [runGesture, gestureStep, ih p.1 p.2]

lemma moves_emissions_fresh (ms : List (ℚ × ℚ)) (x y : ℚ) :
    (runGesture true ⟨true, false, x, y⟩ (ms.map fun p => GestureEvent.move p.1 p.2)).2 =
      if anyStepReaches x y ms then [GestureEmission.pet] else [] := by
  induction ms generalizing x y with
  | nil => rfl
  | cons p ps ih =>
    by_cases hr : petMoveReaches (p.1 - x) (p.2 - y) = true
    · simp [runGesture, gestureStep, anyStepReaches, hr, moves_emissions_dragged]
    · simp [runGesture, gestureStep, anyStepReaches, hr, ih p.1 p.2]

lemma suffix_emissions (tk : Bool) (s : PointerState) (dt : Bool) :
    (runGesture tk s ((if dt then [GestureEvent.tapFired] else []) ++ [GestureEvent.up])).2 =
      if dt then [GestureEmission.tapGesture] else [] := by
  cases dt <;> simp [runGesture, gestureStep]

lemma cycleEmissions_eq (x y : ℚ) (ms : List (ℚ × ℚ)) (dt : Bool) :
    cycleEmissions true x y ms dt =
      (if anyStepReaches x y ms then [GestureEmission.pet] else []) ++
        (if dt then [GestureEmission.tapGesture] else []) := by
  unfold cycleEmissions pressCycle
  simp only [runGesture, gestureStep]
  rw [runGesture_append, suffix_emissions, moves_emissions_fresh]
  simp

lemma cumulativeDragDistance_nonneg (ms : List (ℚ × ℚ)) (x y : ℚ) :
    0 ≤ cumulativeDragDistance x y ms := by
  induction ms generalizing x y with
  | nil => simp [cumulativeDragDistance]
  | cons p ps ih =>
    unfold cumulativeDragDistance
    exact add_nonneg (Real.sqrt_nonneg _) (ih p.1 p.2)

lemma anyStepReaches_le_cumulative (ms : List (ℚ × ℚ)) (x y : ℚ)
    (h : anyStepReaches x y ms = true) :
    (65 : ℝ) ≤ cumulativeDragDistance x y ms := by
  induction ms generalizing x y with
  | nil => simp [anyStepReaches] at h
  | cons p ps ih =>
    unfold anyStepReaches at h
    unfold cumulativeDragDistance
    by_cases hr : petMoveReaches (p.1 - x) (p.2 - y) = true
    · have hq : ((65 : ℚ)) ^ 2 ≤ (p.1 - x) ^ 2 + (p.2 - y) ^ 2 := by
        have := of_decide_eq_true hr
        simpa [PET_DISTANCE_THRESHOLD] using this
      have hcast : ((65 : ℝ)) ^ 2 ≤ ((p.1 : ℝ) - (x : ℝ)) ^ 2 + ((p.2 : ℝ) - (y : ℝ)) ^ 2 := by
        exact_mod_cast hq
      have h65 : (65 : ℝ) ≤ Real.sqrt (((p.1 : ℝ) - (x : ℝ)) ^ 2 + ((p.2 : ℝ) - (y : ℝ)) ^ 2) := by
        calc (65 : ℝ) = Real.sqrt (65 ^ 2) := by
              rw [Real.sqrt_sq (by norm_num)]
          _ ≤ _ := Real.sqrt_le_sqrt hcast
      have htail := cumulativeDragDistance_nonneg ps p.1 p.2
      linarith
    · rw [if_neg hr] at h
      have htail := ih p.1 p.2 h
      have hhead := Real.sqrt_nonneg (((p.1 : ℝ) - (x : ℝ)) ^ 2 + ((p.2 : ℝ) - (y : ℝ)) ^ 2)
      linarith

/-- C4 counterexample: the pointer sequence
down (0,0) → move (40,0) → move (80,0) → up drags a cumulative distance
of 80 ≥ 65 logical pixels, yet the handlers emit no pet gesture: the
threshold test of `handlePointerMove` compares each single move's
displacement from the previously recorded point (40 here, twice), not
the cumulative drag distance. -/
theorem gesture_cumulative_threshold_counterexample :
    cumulativeDragDistance 0 0 [(40, 0), (80, 0)] = 80 ∧
      (65 : ℝ) ≤ 80 ∧
      (cycleEmissions true 0 0 [(40, 0), (80, 0)] false).count GestureEmission.pet = 0 := by
  have hs : Real.sqrt 1600 = 40 := by
    rw [show (1600 : ℝ) = 40 ^ 2 by norm_num]
    exact Real.sqrt_sq (by norm_num)
  refine ⟨?_, by norm_num, ?_⟩
  · simp only [cumulativeDragDistance]
    push_cast
    norm_num [hs]
  · rw [cycleEmissions_eq]
    have hreach : anyStepReaches 0 0 [(40, 0), (80, 0)] = false := by
      norm_num [anyStepReaches, petMoveReaches, PET_DISTANCE_THRESHOLD]
    rw [hreach]
    simp

/-- C4 amended: the pet threshold is applied to each single
`pointermove` displacement from the previously recorded point, not to
the cumulative drag distance.  For every press-drag-release cycle
(with a succeeding motion trigger): exactly one pet is emitted iff some
single move displacement reaches the ~65-logical-pixel threshold and
none otherwise — in particular none when the cumulative drag distance
stays below the threshold, in which case the cycle classifies as tap
through the framework's `pointertap` event; `handlePointerTap` is not
suppressed after a pet, so the tap count follows the framework's
`pointertap` delivery alone. -/
theorem gesture_pet_per_move_threshold (x y : ℚ) (moves : List (ℚ × ℚ))
    (deliversTap : Bool) :
    (cycleEmissions true x y moves deliversTap).count GestureEmission.pet =
        (if anyStepReaches x y moves then 1 else 0) ∧
      (cycleEmissions true x y moves deliversTap).count GestureEmission.tapGesture =
        (if deliversTap then 1 else 0) ∧
      (cumulativeDragDistance x y moves < 65 →
        (cycleEmissions true x y moves deliversTap).count GestureEmission.pet = 0) := by
  rw [cycleEmissions_eq]
  refine ⟨?_, ?_, ?_⟩
  · cases anyStepReaches x y moves <;> cases deliversTap <;> simp
  · cases anyStepReaches x y moves <;> cases deliversTap <;> simp
  · intro hcum
    have hreach : anyStepReaches x y moves = false := by
      cases hr : anyStepReaches x y moves
      · rfl
      · exact absurd (anyStepReaches_le_cumulative moves x y hr) (by linarith)
    rw [hreach]
    cases deliversTap <;> simp

/-- Witness for `gesture_pet_per_move_threshold` at the cycle
down (0,0) → move (70,0) → release with a `pointertap`. -/
theorem gesture_pet_per_move_threshold_witness :
    (cycleEmissions true 0 0 [(70, 0)] true).count GestureEmission.pet =
        (if anyStepReaches 0 0 [(70, 0)] then 1 else 0) ∧
      (cycleEmissions true 0 0 [(70, 0)] true).count GestureEmission.tapGesture =
        (if true then 1 else 0) ∧
      (cumulativeDragDistance 0 0 [(70, 0)] < 65 →
        (cycleEmissions true 0 0 [(70, 0)] true).count GestureEmission.pet = 0) :=
  gesture_pet_per_move_threshold 0 0 [(70, 0)] true

/-! ### External action bridge (Live2DCharacter.tsx, lines 288, 333,
445–468 and 640–644). -/

def INTERACTION_COOLDOWN : ℚ := 4500

/-- The `ActionRequest` values of the `window.charAction` contract. -/
inductive CharAction where
  | morning
  | night
  | miss
  | blink
deriving DecidableEq, Repr

/-- A director/scheduler call the mounted bridge handler makes. -/
inductive BridgeEffect where
  | motionRequested (group : String) (index : ℕ) (force : Bool)
  | expressionRequested (expressionId : String)
  | ambientRescheduled (delayOverride : ℚ)
deriving DecidableEq, Repr

/-- The switch body of the handler installed at line 445 (lines
447–467), as the list of calls it makes.  `motionOk` is the Boolean the
forced idle-group `triggerMotion` returns; `handled` follows the
source — that Boolean for `morning`/`night`, `true` for
`miss`/`blink` — and gates the cooldown reschedule. -/
def bridgeDispatch (idleMotionGroup : String) (motionOk : Bool) :
    CharAction → List BridgeEffect
  | .morning =>
    BridgeEffect.motionRequested idleMotionGroup 0 true ::
      (if motionOk then [BridgeEffect.ambientRescheduled INTERACTION_COOLDOWN] else [])
  | .night =>
    BridgeEffect.motionRequested idleMotionGroup 0 true ::
      (if motionOk then [BridgeEffect.ambientRescheduled INTERACTION_COOLDOWN] else [])
  | .miss =>
    [BridgeEffect.expressionRequested "exp_05",
      BridgeEffect.ambientRescheduled INTERACTION_COOLDOWN]
  | .blink =>
    [BridgeEffect.expressionRequested "exp_01",
      BridgeEffect.ambientRescheduled INTERACTION_COOLDOWN]

def BridgeHandler : Type := CharAction → List BridgeEffect

/-- The handler the effect installs into the `window.charAction` slot
(line 445): `previousHandler?.(action)` runs first — chaining to
whatever was installed before mount — then the component's own switch
dispatch. -/
def installedBridgeHandler (previousHandler : Option BridgeHandler)
    (idleMotionGroup : String) (motionOk : Bool) : BridgeHandler :=
  fun action =>
    (match previousHandler with
     | some h => h action
     | none => []) ++ bridgeDispatch idleMotionGroup motionOk action

/-- Mount: line 333 saves the current slot value as `previousHandler`,
line 445 overwrites the slot with the chained handler.  Returns the new
slot value and the saved previous value. -/
def bridgeMount (slot : Option BridgeHandler) (idleMotionGroup : String)
    (motionOk : Bool) : Option BridgeHandler × Option BridgeHandler :=
  (some (installedBridgeHandler slot idleMotionGroup motionOk), slot)

/-- Unmount cleanup (lines 640–644): write `previousHandler` back when
one existed, otherwise `delete window.charAction` (empty slot). -/
def bridgeUnmount (saved : Option BridgeHandler) : Option BridgeHandler :=
  match saved with
  | some h => some h
  | none => none

/-- C7: invoking the handler installed at mount first invokes the
pre-mount handler and appends the component's own dispatch (so the
previous handler's effects come first and are never discarded), and
unmounting restores the slot exactly to its pre-mount value — the saved
handler when one existed, the deleted (empty) slot when none did. -/
theorem bridge_chains_and_restores (prev : BridgeHandler)
    (idleMotionGroup : String) (motionOk : Bool) (action : CharAction)
    (slot : Option BridgeHandler) :
    installedBridgeHandler (some prev) idleMotionGroup motionOk action =
        prev action ++ bridgeDispatch idleMotionGroup motionOk action ∧
      installedBridgeHandler none idleMotionGroup motionOk action =
        bridgeDispatch idleMotionGroup motionOk action ∧
      bridgeUnmount (bridgeMount slot idleMotionGroup motionOk).2 = slot := by
  refine ⟨rfl, rfl, ?_⟩
  cases slot <;> rfl

/-! ### Unmount during the asynchronous load (Live2DCharacter.tsx,
lines 336–443 and 638–671). -/

/-- Observable world state of one mount: what is attached, registered
and armed, which resources were created/destroyed, and which refs are
set. -/
structure MountWorld where
  canvasAttached : Bool
  listenersRegistered : Bool
  ambientTimerArmed : Bool
  appCreated : Bool
  appDestroyed : Bool
  appRefSet : Bool
  modelCreated : Bool
  modelDestroyed : Bool
  modelRefSet : Bool
deriving DecidableEq, Repr

def MountWorld.start : MountWorld :=
  ⟨false, false, false, false, false, false, false, false, false⟩

/-- Lines 354–372, run between the two cancellation checks: create the
Application, attach its canvas to the container, set `appRef.current`. -/
def attachSurface (w : MountWorld) : MountWorld :=
  { w with appCreated := true, canvasAttached := true, appRefSet := true }

/-- Lines 385–443, run only when the post-load cancellation check
passes: set `modelRef.current`, register the pointer listeners, start
idle motion and arm the ambient timer. -/
def finishSetup (w : MountWorld) : MountWorld :=
  { w with modelRefSet := true, listenersRegistered := true, ambientTimerArmed := true }

/-- The effect cleanup (lines 638–671), run synchronously at unmount:
remove the ticker callback, destroy the model and the app through their
refs when those are set and null the refs, empty the container
(`innerHTML = ''`), clear the ambient timer, detach the pointer
listeners. -/
def effectCleanup (w : MountWorld) : MountWorld :=
  { w with
    ambientTimerArmed := false,
    listenersRegistered := false,
    canvasAttached := false,
    modelDestroyed := w.modelDestroyed || w.modelRefSet,
    modelRefSet := false,
    appDestroyed := w.appDestroyed || w.appRefSet,
    appRefSet := false }

/-- The suspension point of `setup` at which the component unmounts. -/
inductive CancelPoint where
  | duringCoreLoad
  | duringImports
  | duringModelLoad
deriving DecidableEq, Repr

/-- A mount unmounted while `setup` is suspended at `cp`: the cleanup
runs synchronously with `cancelled := true`, then the suspended `setup`
resumes.
* Suspended in `ensureCubismCoreLoaded` or in the dynamic imports:
  nothing was created yet, and on resume the check of line 345
  (`if (cancelled || !containerRef.current) return`) returns before
  creating anything.
* Suspended in `Live2DModel.from`: the surface was already created and
  attached (lines 354–372) and the cleanup tears it down; on resume the
  load is allowed to complete (`modelCreated`), and the check of lines
  379–383 destroys the fresh model and the app and returns —
  `finishSetup` (listeners, timer, refs) never runs. -/
def unmountMidLoad : CancelPoint → MountWorld
  | .duringCoreLoad => effectCleanup MountWorld.start
  | .duringImports => effectCleanup MountWorld.start
  | .duringModelLoad =>
    let w1 := attachSurface MountWorld.start
    let w2 := effectCleanup w1
    let w3 := { w2 with modelCreated := true }
    { w3 with modelDestroyed := true, appDestroyed := true }

/-- C9: for every suspension point at which the unmount can interrupt
the in-flight load, the final world has no canvas attached to the
container, no pointer listeners registered and no ambient timer armed,
and every model or surface that was created was also destroyed; when
the unmount interrupts the model load itself, the load is still allowed
to resolve (the model is created) and the resolved model is destroyed
rather than used. -/
theorem unmount_mid_load_is_clean (cp : CancelPoint) :
    (unmountMidLoad cp).canvasAttached = false ∧
      (unmountMidLoad cp).listenersRegistered = false ∧
      (unmountMidLoad cp).ambientTimerArmed = false ∧
      ((unmountMidLoad cp).modelCreated = true → (unmountMidLoad cp).modelDestroyed = true) ∧
      ((unmountMidLoad cp).appCreated = true → (unmountMidLoad cp).appDestroyed = true) ∧
      (cp = CancelPoint.duringModelLoad → (unmountMidLoad cp).modelCreated = true) := by
  cases cp <;>
    simp [unmountMidLoad, effectCleanup, attachSurface, MountWorld.start]

/-- Witness for `unmount_mid_load_is_clean` at the unmount that
interrupts the model load itself. -/
theorem unmount_mid_load_is_clean_witness :
    (unmountMidLoad CancelPoint.duringModelLoad).canvasAttached = false ∧
      (unmountMidLoad CancelPoint.duringModelLoad).listenersRegistered = false ∧
      (unmountMidLoad CancelPoint.duringModelLoad).ambientTimerArmed = false ∧
      ((unmountMidLoad CancelPoint.duringModelLoad).modelCreated = true →
        (unmountMidLoad CancelPoint.duringModelLoad).modelDestroyed = true) ∧
      ((unmountMidLoad CancelPoint.duringModelLoad).appCreated = true →
        (unmountMidLoad CancelPoint.duringModelLoad).appDestroyed = true) ∧
      (CancelPoint.duringModelLoad = CancelPoint.duringModelLoad →
        (unmountMidLoad CancelPoint.duringModelLoad).modelCreated = true) :=
  unmount_mid_load_is_clean CancelPoint.duringModelLoad

/-! ### Load-failure status (Live2DCharacter.tsx, lines 327, 627–633
and 674–686). -/

inductive LoadStatus where
  | loading
  | ready
  | error
deriving DecidableEq, Repr

/-- The `catch` handler of `setup` (lines 627–633): log the failure,
and only when the effect has not been cancelled set the status to
`'error'` and record the message; when cancelled it leaves the React
state untouched. -/
def setupCatchHandler (cancelled : Bool) (message : String)
    (st : LoadStatus × String) : LoadStatus × String :=
  if cancelled then st else (LoadStatus.error, message)

/-- The render of the placeholders (lines 674–686): the visible error
placeholder is shown exactly when the status is `'error'`. -/
def showsErrorPlaceholder (status : LoadStatus) : Bool :=
  match status with
  | .error => true
  | _ => false

/-- C10: when initialization throws after the effect has been cancelled
(unmount during load), the status/message pair is left unchanged and —
as long as the status was not already `'error'` — the error placeholder
is not shown; the error status and message are recorded only when the
failure happens while still mounted (`cancelled = false`). -/
theorem cancelled_failure_keeps_status (cancelled : Bool) (message : String)
    (st : LoadStatus × String) (hc : cancelled = true)
    (hs : st.1 ≠ LoadStatus.error) :
    setupCatchHandler cancelled message st = st ∧
      showsErrorPlaceholder (setupCatchHandler cancelled message st).1 = false ∧
      setupCatchHandler false message st = (LoadStatus.error, message) := by
  subst hc
  refine ⟨rfl, ?_, rfl⟩
  show showsErrorPlaceholder st.1 = false
  cases h1 : st.1 <;> simp_all [showsErrorPlaceholder]

/-- Witness for `cancelled_failure_keeps_status`: a cancelled effect in
the `'loading'` state. -/
theorem cancelled_failure_keeps_status_witness :
    setupCatchHandler true "load failed" (LoadStatus.loading, "") =
        (LoadStatus.loading, "") ∧
      showsErrorPlaceholder
          (setupCatchHandler true "load failed" (LoadStatus.loading, "")).1 = false ∧
      setupCatchHandler false "load failed" (LoadStatus.loading, "") =
        (LoadStatus.error, "load failed") :=
  cancelled_failure_keeps_status true "load failed" (LoadStatus.loading, "")
    rfl (by decide)

end Totono.Live2D
